import Mathlib

/-!
Verification of the git MCP server shim (`src/git/src/mcp_server_git/server.py`).

The server delegates all repository work to an external git engine
(the GitPython library).  We embed the engine as an abstract environment:
a `GitEnv` says, for each path, whether opening a repository succeeds,
raises `InvalidGitRepositoryError`, raises `NoSuchPathError`, or raises
some other exception; an opened `Repo` carries the outcomes of every
engine operation the handlers invoke.  Filesystem paths are modelled as
the raw strings the caller supplies.  Python exceptions that the shim
does not catch are modelled with the `Except PyErr` monad: a `.error`
result of `call_tool` or `serve` is an exception propagating out of the
function.
-/

/-- A single-quote character, used inside the error/confirmation strings. -/
def apos : String := String.singleton (Char.ofNat 39)

/-- The per-commit data the handlers read: `hexsha`, `author`,
`authored_datetime` and `message`, each rendered as a string. -/
structure CommitInfo where
  hexsha : String
  author : String
  authoredDatetime : String
  message : String
  deriving DecidableEq, Repr

/-- A commit object as returned by `repo.commit(revision)`: its own data
plus the data of its parent commits (`commit.parents`). -/
structure CommitObj where
  info : CommitInfo
  parents : List CommitInfo
  deriving DecidableEq, Repr

/-- One entry of a `create_patch=True` diff: `a_path`, `b_path` and the
decoded patch text (`d.diff.decode`). -/
structure DiffItem where
  a_path : String
  b_path : String
  diffText : String
  deriving DecidableEq, Repr

/-- A branch/reference object; the handlers only read its `name`. -/
structure RefObj where
  name : String
  deriving DecidableEq, Repr

/-- A `git.GitCommandError` (or, for `repo.commit`, also the `ValueError`
family) as rendered by `str(e)`; these are the exception types the
handlers catch. -/
structure GitErr where
  msg : String
  deriving DecidableEq, Repr

/-- An engine exception that the handler does NOT catch, rendered by
`str(e)`; it propagates out of `call_tool`. -/
structure EngErr where
  msg : String
  deriving DecidableEq, Repr

/-- An opened repository: the outcome of every engine call a handler can
make on it.  Each field models one GitPython entry point used by
`server.py`. -/
structure Repo where
  /-- `repo.git.status()` -/
  statusResult : Except GitErr String
  /-- `repo.git.diff()` -/
  diffUnstagedResult : Except GitErr String
  /-- `repo.git.diff("--cached")` -/
  diffStagedResult : Except GitErr String
  /-- `repo.git.diff(target)` -/
  diffResult : String → Except GitErr String
  /-- `repo.index.commit(message)`; failures are uncaught -/
  indexCommit : String → Except EngErr CommitInfo
  /-- `repo.index.add(files)`; failures are uncaught -/
  indexAdd : List String → Except EngErr Unit
  /-- `repo.index.reset()`; failures are uncaught -/
  indexReset : Except EngErr Unit
  /-- `repo.iter_commits(max_count=n)`, forced to a list -/
  iterCommits : Int → Except GitErr (List CommitInfo)
  /-- `repo.refs[base_branch]`; a missing key raises, uncaught -/
  refs : String → Except EngErr RefObj
  /-- `repo.active_branch`; raises on a detached HEAD, uncaught -/
  activeBranch : Except EngErr RefObj
  /-- `repo.create_head(branch_name, base)`; failures are uncaught -/
  createHead : String → RefObj → Except EngErr Unit
  /-- `repo.git.checkout(branch_name)`; failures are uncaught -/
  checkoutGit : String → Except EngErr Unit
  /-- `repo.commit(revision)`; raises are caught in `git_show` -/
  commitLookup : String → Except GitErr CommitObj
  /-- `parent.diff(commit, create_patch=True)` -/
  diffAgainstParent : CommitInfo → CommitObj → Except GitErr (List DiffItem)
  /-- `commit.diff(git.NULL_TREE, create_patch=True)` -/
  diffAgainstNullTree : CommitObj → Except GitErr (List DiffItem)

/-- The outcome of `git.Repo(path)`: success, or one of the exception
classes `call_tool` distinguishes.  In GitPython,
`InvalidGitRepositoryError` and `NoSuchPathError` are sibling subclasses
of `GitError` (neither is a subclass of the other), so the two `except`
clauses in `call_tool` are both reachable and `serve`, which catches only
`InvalidGitRepositoryError`, lets `NoSuchPathError` escape. -/
inductive OpenResult where
  | ok (repo : Repo)
  | invalidGitRepository
  | noSuchPath
  | otherError (msg : String)

/-- The external git engine: what `git.Repo(path)` and
`git.Repo.init(path, mkdir=True)` do at each path.  `initRepo` returns
the new repository's `git_dir` on success, or the rendered message of
the exception it raised. -/
structure GitEnv where
  openRepo : String → OpenResult
  initRepo : String → Except String String

/-- A Python exception propagating out of `call_tool` or `serve`. -/
inductive PyErr where
  /-- `KeyError` from `arguments[...]` on a missing key -/
  | keyError (key : String)
  /-- `TypeError`, e.g. `Path(non_string)` -/
  | typeError (msg : String)
  /-- `ValueError`, e.g. the unknown-tool raise or a bad `int(...)` -/
  | valueError (msg : String)
  /-- `git.NoSuchPathError` escaping `serve` -/
  | noSuchPath (path : String)
  /-- an uncaught engine exception escaping a handler -/
  | engine (msg : String)
  deriving DecidableEq, Repr

/-- One `TextContent` item of a tool response. -/
structure TextContent where
  type : String
  text : String
  deriving DecidableEq, Repr

/-- An argument value in the `arguments` mapping of a tool call. -/
inductive Val where
  | str (s : String)
  | int (n : Int)
  | strList (l : List String)
  | none
  deriving DecidableEq, Repr

/-- The `arguments` mapping: association list from key to value. -/
def Args : Type := List (String × Val)

-- The 12 tool-name constants of the GitTools enum.
namespace GitTools

def STATUS : String := "git_status"

def DIFF_UNSTAGED : String := "git_diff_unstaged"

def DIFF_STAGED : String := "git_diff_staged"

def DIFF : String := "git_diff"

def COMMIT : String := "git_commit"

def ADD : String := "git_add"

def RESET : String := "git_reset"

def LOG : String := "git_log"

def CREATE_BRANCH : String := "git_create_branch"

def CHECKOUT : String := "git_checkout"

def SHOW : String := "git_show"

def INIT : String := "git_init"

end GitTools

/-- The 12 fixed tool identifiers, in catalog order. -/
def gitToolNames : List String :=
  [GitTools.STATUS, GitTools.DIFF_UNSTAGED, GitTools.DIFF_STAGED,
   GitTools.DIFF, GitTools.COMMIT, GitTools.ADD, GitTools.RESET,
   GitTools.LOG, GitTools.CREATE_BRANCH, GitTools.CHECKOUT,
   GitTools.SHOW, GitTools.INIT]

/-- `git_status(repo)`: working-tree status, catching `GitCommandError`. -/
def git_status (repo : Repo) : String :=
  match repo.statusResult with
  | .ok s => s
  | .error e => "Error getting status: " ++ e.msg

/-- `git_diff_unstaged(repo)`. -/
def git_diff_unstaged (repo : Repo) : String :=
  match repo.diffUnstagedResult with
  | .ok s => s
  | .error e => "Error getting unstaged diff: " ++ e.msg

/-- `git_diff_staged(repo)`. -/
def git_diff_staged (repo : Repo) : String :=
  match repo.diffStagedResult with
  | .ok s => s
  | .error e => "Error getting staged diff: " ++ e.msg

/-- `git_diff(repo, target)`. -/
def git_diff (repo : Repo) (target : String) : String :=
  match repo.diffResult target with
  | .ok s => s
  | .error e => "Error getting diff with " ++ target ++ ": " ++ e.msg

/-- `git_commit(repo, message)`: no try/except, so an engine failure
propagates as a `.error`. -/
def git_commit (repo : Repo) (message : String) : Except EngErr String :=
  match repo.indexCommit message with
  | .ok commit => .ok ("Changes committed successfully with hash " ++ commit.hexsha)
  | .error e => .error e

/-- `git_add(repo, files)`: no try/except. -/
def git_add (repo : Repo) (files : List String) : Except EngErr String :=
  match repo.indexAdd files with
  | .ok _ => .ok "Files staged successfully"
  | .error e => .error e

/-- `git_reset(repo)`: no try/except. -/
def git_reset (repo : Repo) : Except EngErr String :=
  match repo.indexReset with
  | .ok _ => .ok "All staged changes reset"
  | .error e => .error e

/-- The four-line rendering of one commit in `git_log`. -/
def logEntry (c : CommitInfo) : String :=
  "Commit: " ++ c.hexsha ++ "\n" ++
  "Author: " ++ c.author ++ "\n" ++
  "Date: " ++ c.authoredDatetime ++ "\n" ++
  "Message: " ++ c.message ++ "\n"

/-- `git_log(repo, max_count=10)`: renders each commit from
`iter_commits(max_count=max_count)` and joins the entries with a blank
line separator; `GitCommandError` is caught. -/
def git_log (repo : Repo) (max_count : Int := 10) : String :=
  match repo.iterCommits max_count with
  | .ok commits => String.intercalate "\n" (commits.map logEntry)
  | .error e => "Error getting commit logs: " ++ e.msg

/-- `git_create_branch(repo, branch_name, base_branch=None)`: base is
`repo.refs[base_branch]` when `base_branch` is truthy (present and
non-empty), else `repo.active_branch`; no try/except. -/
def git_create_branch (repo : Repo) (branch_name : String)
    (base_branch : Option String := Option.none) : Except EngErr String :=
  let baseRes : Except EngErr RefObj :=
    match base_branch with
    | some b => if b = "" then repo.activeBranch else repo.refs b
    | Option.none => repo.activeBranch
  match baseRes with
  | .error e => .error e
  | .ok base =>
    match repo.createHead branch_name base with
    | .error e => .error e
    | .ok _ =>
      .ok ("Created branch " ++ apos ++ branch_name ++ apos ++
           " from " ++ apos ++ base.name ++ apos)

/-- `git_checkout(repo, branch_name)`: no try/except. -/
def git_checkout (repo : Repo) (branch_name : String) : Except EngErr String :=
  match repo.checkoutGit branch_name with
  | .ok _ => .ok ("Switched to branch " ++ apos ++ branch_name ++ apos)
  | .error e => .error e

/-- `git_init(repo_path)`: catches every exception. -/
def git_init (env : GitEnv) (repo_path : String) : String :=
  match env.initRepo repo_path with
  | .ok gitDir => "Initialized empty Git repository in " ++ gitDir
  | .error e => "Error initializing repository: " ++ e

/-- The four-line header of `git_show`'s output (same format string as
`git_log`'s entries). -/
def commitHeader (c : CommitInfo) : String :=
  "Commit: " ++ c.hexsha ++ "\n" ++
  "Author: " ++ c.author ++ "\n" ++
  "Date: " ++ c.authoredDatetime ++ "\n" ++
  "Message: " ++ c.message ++ "\n"

/-- The rendering of one diff entry in `git_show`'s output. -/
def renderDiffItem (d : DiffItem) : String :=
  "\n--- " ++ d.a_path ++ "\n+++ " ++ d.b_path ++ "\n" ++ d.diffText

/-- `git_show(repo, revision)`: header then per-file diffs; diff is taken
against the first parent when `commit.parents` is non-empty, else
against `git.NULL_TREE`; `GitCommandError` and `ValueError` are caught. -/
def git_show (repo : Repo) (revision : String) : String :=
  match repo.commitLookup revision with
  | .error e => "Error showing commit " ++ revision ++ ": " ++ e.msg
  | .ok c =>
    let diffRes : Except GitErr (List DiffItem) :=
      match c.parents with
      | parent :: _ => repo.diffAgainstParent parent c
      | [] => repo.diffAgainstNullTree c
    match diffRes with
    | .error e => "Error showing commit " ++ revision ++ ": " ++ e.msg
    | .ok ds => String.join (commitHeader c.info :: ds.map renderDiffItem)

/-- `str(arguments["repo_path"])` after `Path(...)`: Python's `Path`
accepts only path-like values and raises `TypeError` otherwise; on a
plain string we keep the string itself. -/
def asStr : Val → Except PyErr String
  | .str s => .ok s
  | _ => .error (.typeError "argument is not a string")

/-- `arguments["files"]`, expected to be a list of paths. -/
def asStrList : Val → Except PyErr (List String)
  | .strList l => .ok l
  | _ => .error (.typeError "argument is not a list of strings")

/-- `int(v)`: keeps an integer, parses an integer-looking string, and
raises otherwise. -/
def asInt : Val → Except PyErr Int
  | .int n => .ok n
  | .str s =>
    match s.toInt? with
    | some n => .ok n
    | Option.none => .error (.valueError ("invalid literal for int: " ++ s))
  | _ => .error (.typeError "int argument must be a string or a number")

/-- The text returned when `git.Repo(repo_path)` raises
`InvalidGitRepositoryError`. -/
def invalidRootText (repo_path : String) : String :=
  "Error: " ++ apos ++ repo_path ++ apos ++ " is " ++
  "not a valid Git repository root" ++ ". " ++
  "Please provide the path to the repository root (the directory containing the " ++
  apos ++ ".git" ++ apos ++ " folder), " ++ "not a subdirectory" ++ "."

/-- The text returned when `git.Repo(repo_path)` raises `NoSuchPathError`. -/
def noPathText (repo_path : String) : String :=
  "Error: Path " ++ apos ++ repo_path ++ apos ++ " does not exist" ++ "."

/-- The text returned when `git.Repo(repo_path)` raises any other exception. -/
def accessErrorText (msg : String) : String :=
  "Error accessing repository: " ++ msg

/-- Builds the single `TextContent(type="text", text=...)` item every
branch of `call_tool` wraps its string in. -/
def mkText (t : String) : TextContent :=
  TextContent.mk "text" t

/-- The `call_tool` request handler.  `.ok` is a normal return (a list of
content items); `.error` is an exception propagating to the transport. -/
def call_tool (env : GitEnv) (name : String) (args : Args) :
    Except PyErr (List TextContent) :=
  match List.lookup "repo_path" args with
  | Option.none => .error (.keyError "repo_path")
  | some rv =>
    match asStr rv with
    | .error e => .error e
    | .ok repo_path =>
      -- git init is handled first: it does not require an existing repo
      if name = GitTools.INIT then
        .ok [mkText (git_init env repo_path)]
      else
        match env.openRepo repo_path with
        | .invalidGitRepository => .ok [mkText (invalidRootText repo_path)]
        | .noSuchPath => .ok [mkText (noPathText repo_path)]
        | .otherError m => .ok [mkText (accessErrorText m)]
        | .ok repo =>
          if name = GitTools.STATUS then
            .ok [mkText (git_status repo)]
          else if name = GitTools.DIFF_UNSTAGED then
            .ok [mkText (git_diff_unstaged repo)]
          else if name = GitTools.DIFF_STAGED then
            .ok [mkText (git_diff_staged repo)]
          else if name = GitTools.DIFF then
            match List.lookup "target" args with
            | Option.none => .error (.keyError "target")
            | some tv =>
              match asStr tv with
              | .error e => .error e
              | .ok target => .ok [mkText (git_diff repo target)]
          else if name = GitTools.COMMIT then
            match List.lookup "message" args with
            | Option.none => .error (.keyError "message")
            | some mv =>
              match asStr mv with
              | .error e => .error e
              | .ok message =>
                match git_commit repo message with
                | .ok r => .ok [mkText r]
                | .error e => .error (.engine e.msg)
          else if name = GitTools.ADD then
            match List.lookup "files" args with
            | Option.none => .error (.keyError "files")
            | some fv =>
              match asStrList fv with
              | .error e => .error e
              | .ok files =>
                match git_add repo files with
                | .ok r => .ok [mkText r]
                | .error e => .error (.engine e.msg)
          else if name = GitTools.RESET then
            match git_reset repo with
            | .ok r => .ok [mkText r]
            | .error e => .error (.engine e.msg)
          else if name = GitTools.LOG then
            -- int(arguments.get("max_count", 10))
            match (match List.lookup "max_count" args with
                   | Option.none => Except.ok (10 : Int)
                   | some v => asInt v) with
            | .error e => .error e
            | .ok n => .ok [mkText (git_log repo n)]
          else if name = GitTools.CREATE_BRANCH then
            match List.lookup "branch_name" args with
            | Option.none => .error (.keyError "branch_name")
            | some bv =>
              match asStr bv with
              | .error e => .error e
              | .ok branch_name =>
                -- arguments.get("base_branch"): absent or null means None
                let base_branch : Option String :=
                  match List.lookup "base_branch" args with
                  | some (Val.str s) => some s
                  | _ => Option.none
                match git_create_branch repo branch_name base_branch with
                | .ok r => .ok [mkText r]
                | .error e => .error (.engine e.msg)
          else if name = GitTools.CHECKOUT then
            match List.lookup "branch_name" args with
            | Option.none => .error (.keyError "branch_name")
            | some bv =>
              match asStr bv with
              | .error e => .error e
              | .ok branch_name =>
                match git_checkout repo branch_name with
                | .ok r => .ok [mkText r]
                | .error e => .error (.engine e.msg)
          else if name = GitTools.SHOW then
            match List.lookup "revision" args with
            | Option.none => .error (.keyError "revision")
            | some rv2 =>
              match asStr rv2 with
              | .error e => .error e
              | .ok revision => .ok [mkText (git_show repo revision)]
          else
            .error (.valueError ("Unknown tool: " ++ name))

/-- How `serve` ends when it does not raise: it either returned before
creating the server (after logging the invalid startup repository), or
went on to serve requests with the given default repository. -/
inductive ServeOutcome where
  | loggedAndExited
  | served (defaultRepo : Option String)
  deriving DecidableEq, Repr

/-- The startup-validation prelude of `serve`: with a configured
repository path it runs `git.Repo(repository)`, catching ONLY
`InvalidGitRepositoryError` (log and return); every other exception,
`NoSuchPathError` included, propagates. -/
def serve (env : GitEnv) (repository : Option String) : Except PyErr ServeOutcome :=
  match repository with
  | Option.none => .ok (.served Option.none)
  | some p =>
    match env.openRepo p with
    | .ok _ => .ok (.served (some p))
    | .invalidGitRepository => .ok .loggedAndExited
    | .noSuchPath => .error (.noSuchPath p)
    | .otherError m => .error (.engine m)

/-- A pydantic input schema: JSON-typed properties and the required keys. -/
structure Schema where
  properties : List (String × String)
  required : List String
  deriving DecidableEq, Repr

/-- A tool descriptor. -/
structure Tool where
  name : String
  description : String
  inputSchema : Schema
  deriving DecidableEq, Repr

/-- `GitStatus.schema()` (also the shape of `GitDiffUnstaged`,
`GitDiffStaged`, `GitReset`, `GitInit`): just the required `repo_path`. -/
def repoOnlySchema : Schema :=
  Schema.mk [("repo_path", "string")] ["repo_path"]

/-- `GitDiff.schema()`. -/
def gitDiffSchema : Schema :=
  Schema.mk [("repo_path", "string"), ("target", "string")] ["repo_path", "target"]

/-- `GitCommit.schema()`. -/
def gitCommitSchema : Schema :=
  Schema.mk [("repo_path", "string"), ("message", "string")] ["repo_path", "message"]

/-- `GitAdd.schema()`. -/
def gitAddSchema : Schema :=
  Schema.mk [("repo_path", "string"), ("files", "array")] ["repo_path", "files"]

/-- `GitLog.schema()`: `max_count` is optional with default 10. -/
def gitLogSchema : Schema :=
  Schema.mk [("repo_path", "string"), ("max_count", "integer")] ["repo_path"]

/-- `GitCreateBranch.schema()`: `base_branch` is optional. -/
def gitCreateBranchSchema : Schema :=
  Schema.mk [("repo_path", "string"), ("branch_name", "string"), ("base_branch", "string")]
    ["repo_path", "branch_name"]

/-- `GitCheckout.schema()`. -/
def gitCheckoutSchema : Schema :=
  Schema.mk [("repo_path", "string"), ("branch_name", "string")] ["repo_path", "branch_name"]

/-- `GitShow.schema()`. -/
def gitShowSchema : Schema :=
  Schema.mk [("repo_path", "string"), ("revision", "string")] ["repo_path", "revision"]

/-- The `list_tools` handler: the static catalog of the 12 descriptors. -/
def list_tools : List Tool :=
  [Tool.mk GitTools.STATUS
     "Shows the working tree status. The repo_path must be the Git repository root."
     repoOnlySchema,
   Tool.mk GitTools.DIFF_UNSTAGED
     "Shows changes in the working directory that are not yet staged. The repo_path must be the Git repository root."
     repoOnlySchema,
   Tool.mk GitTools.DIFF_STAGED
     "Shows changes that are staged for commit. The repo_path must be the Git repository root."
     repoOnlySchema,
   Tool.mk GitTools.DIFF
     "Shows differences between branches or commits. The repo_path must be the Git repository root."
     gitDiffSchema,
   Tool.mk GitTools.COMMIT
     "Records changes to the repository. The repo_path must be the Git repository root."
     gitCommitSchema,
   Tool.mk GitTools.ADD
     "Adds file contents to the staging area. The repo_path must be the Git repository root."
     gitAddSchema,
   Tool.mk GitTools.RESET
     "Unstages all staged changes. The repo_path must be the Git repository root."
     repoOnlySchema,
   Tool.mk GitTools.LOG
     "Shows the commit logs. The repo_path must be the Git repository root."
     gitLogSchema,
   Tool.mk GitTools.CREATE_BRANCH
     "Creates a new branch from an optional base branch. The repo_path must be the Git repository root."
     gitCreateBranchSchema,
   Tool.mk GitTools.CHECKOUT
     "Switches branches. The repo_path must be the Git repository root."
     gitCheckoutSchema,
   Tool.mk GitTools.SHOW
     "Shows the contents of a commit. The repo_path must be the Git repository root."
     gitShowSchema,
   Tool.mk GitTools.INIT
     "Initialize a new Git repository. The repo_path is the directory where the repository will be initialized."
     repoOnlySchema]

/-! ### Concrete environments used to instantiate the theorems -/

/-- A sample commit. -/
def c0 : CommitInfo :=
  CommitInfo.mk "a1b2c3d4e5f60718293a4b5c6d7e8f9012345678" "Alice"
    "2024-01-01 00:00:00" "initial commit"

/-- A sample commit object with no parents. -/
def cObj0 : CommitObj := CommitObj.mk c0 []

/-- A sample diff entry. -/
def d0 : DiffItem := DiffItem.mk "a.txt" "a.txt" "+hello\n"

/-- A repository on which every engine call succeeds. -/
def dummyRepo : Repo where
  statusResult := .ok "clean"
  diffUnstagedResult := .ok ""
  diffStagedResult := .ok ""
  diffResult := fun _ => .ok ""
  indexCommit := fun _ => .ok c0
  indexAdd := fun _ => .ok ()
  indexReset := .ok ()
  iterCommits := fun _ => .ok [c0]
  refs := fun _ => .ok (RefObj.mk "main")
  activeBranch := .ok (RefObj.mk "main")
  createHead := fun _ _ => .ok ()
  checkoutGit := fun _ => .ok ()
  commitLookup := fun _ => .ok cObj0
  diffAgainstParent := fun _ _ => .ok [d0]
  diffAgainstNullTree := fun _ => .ok [d0]

/-- An engine for which no path exists. -/
def envNoPath : GitEnv where
  openRepo := fun _ => OpenResult.noSuchPath
  initRepo := fun _ => .error "permission denied"

/-- An engine for which every path exists but holds no repository. -/
def envInvalidRoot : GitEnv where
  openRepo := fun _ => OpenResult.invalidGitRepository
  initRepo := fun _ => .ok "/tmp/sub/.git"

/-- An engine for which every path opens `dummyRepo`. -/
def envOk : GitEnv where
  openRepo := fun _ => OpenResult.ok dummyRepo
  initRepo := fun _ => .ok "/tmp/r/.git"

/-! ### Helper lemmas -/

/-- The two open-failure texts are never the same string: their lengths
differ by a fixed constant. -/
theorem noPathText_ne_invalidRootText (p : String) :
    noPathText p ≠ invalidRootText p := by
  intro h
  have h2 := congrArg String.length h
  simp only [noPathText, invalidRootText, String.length_append] at h2
  simp only [show apos.length = 1 from rfl,
    show ("Error: Path " : String).length = 12 from rfl,
    show (" does not exist" : String).length = 15 from rfl,
    show ("." : String).length = 1 from rfl,
    show ("Error: " : String).length = 7 from rfl,
    show (" is " : String).length = 4 from rfl,
    show ("not a valid Git repository root" : String).length = 31 from rfl,
    show (". " : String).length = 2 from rfl,
    show ("Please provide the path to the repository root (the directory containing the " : String).length = 77 from rfl,
    show (".git" : String).length = 4 from rfl,
    show (" folder), " : String).length = 10 from rfl,
    show ("not a subdirectory" : String).length = 18 from rfl] at h2
  omega

/-! ### Claims -/

/-- C1: for every tool name other than init, if `repo_path` names an
existing directory that is not a valid repository root (the engine's
open raises `InvalidGitRepositoryError`), `call_tool` returns — does not
raise — a single text result whose text contains the words
"not a valid Git repository root" and the instruction
"not a subdirectory". -/
theorem call_tool_invalid_root_spec (env : GitEnv) (name : String) (args : Args)
    (p : String)
    (hname : name ≠ GitTools.INIT)
    (harg : List.lookup "repo_path" args = some (Val.str p))
    (hopen : env.openRepo p = OpenResult.invalidGitRepository) :
    call_tool env name args = Except.ok [mkText (invalidRootText p)] ∧
    (∃ a b, invalidRootText p = a ++ "not a valid Git repository root" ++ b) ∧
    (∃ a b, invalidRootText p = a ++ "not a subdirectory" ++ b) := by
  refine ⟨?_, ?_, ?_⟩
  · simp only [call_tool, harg, asStr, hname, if_false, ite_false, hopen]
  · exact ⟨"Error: " ++ apos ++ p ++ apos ++ " is ",
      ". " ++ "Please provide the path to the repository root (the directory containing the " ++
        apos ++ ".git" ++ apos ++ " folder), " ++ "not a subdirectory" ++ ".",
      by simp only [invalidRootText, String.append_assoc]⟩
  · exact ⟨"Error: " ++ apos ++ p ++ apos ++ " is " ++
        "not a valid Git repository root" ++ ". " ++
        "Please provide the path to the repository root (the directory containing the " ++
        apos ++ ".git" ++ apos ++ " folder), ",
      ".",
      by simp only [invalidRootText, String.append_assoc]⟩

/-- Witness for C1 at a concrete invalid root. -/
theorem call_tool_invalid_root_spec_witness :
    call_tool envInvalidRoot GitTools.STATUS [("repo_path", Val.str "/tmp/sub")] =
      Except.ok [mkText (invalidRootText "/tmp/sub")] ∧
    (∃ a b, invalidRootText "/tmp/sub" = a ++ "not a valid Git repository root" ++ b) ∧
    (∃ a b, invalidRootText "/tmp/sub" = a ++ "not a subdirectory" ++ b) :=
  call_tool_invalid_root_spec envInvalidRoot GitTools.STATUS
    [("repo_path", Val.str "/tmp/sub")] "/tmp/sub" (by decide) rfl rfl

/-- C2: for every tool name other than init, a `repo_path` that does not
exist (the engine's open raises `NoSuchPathError`) makes `call_tool`
return a single text result saying the path does not exist, and that
text differs from the invalid-repository-root error text. -/
theorem call_tool_no_such_path_spec (env : GitEnv) (name : String) (args : Args)
    (p : String)
    (hname : name ≠ GitTools.INIT)
    (harg : List.lookup "repo_path" args = some (Val.str p))
    (hopen : env.openRepo p = OpenResult.noSuchPath) :
    call_tool env name args = Except.ok [mkText (noPathText p)] ∧
    (∃ a b, noPathText p = a ++ " does not exist" ++ b) ∧
    noPathText p ≠ invalidRootText p := by
  refine ⟨?_, ?_, noPathText_ne_invalidRootText p⟩
  · simp only [call_tool, harg, asStr, hname, if_false, ite_false, hopen]
  · exact ⟨"Error: Path " ++ apos ++ p ++ apos, ".",
      by simp only [noPathText, String.append_assoc]⟩

/-- Witness for C2 at a concrete missing path. -/
theorem call_tool_no_such_path_spec_witness :
    call_tool envNoPath GitTools.LOG [("repo_path", Val.str "/nope")] =
      Except.ok [mkText (noPathText "/nope")] ∧
    (∃ a b, noPathText "/nope" = a ++ " does not exist" ++ b) ∧
    noPathText "/nope" ≠ invalidRootText "/nope" :=
  call_tool_no_such_path_spec envNoPath GitTools.LOG
    [("repo_path", Val.str "/nope")] "/nope" (by decide) rfl rfl

/-- C10: for every tool name (init and unknown names included), an
argument mapping without the key "repo_path" makes `call_tool` raise a
`KeyError`; no handler runs and no text result is produced. -/
theorem call_tool_missing_repo_path_spec (env : GitEnv) (name : String) (args : Args)
    (h : List.lookup "repo_path" args = Option.none) :
    call_tool env name args = Except.error (PyErr.keyError "repo_path") := by
  simp only [call_tool, h]

/-- Witness for C10 with an empty argument mapping and the init tool. -/
theorem call_tool_missing_repo_path_spec_witness :
    call_tool envOk GitTools.INIT [] = Except.error (PyErr.keyError "repo_path") :=
  call_tool_missing_repo_path_spec envOk GitTools.INIT [] rfl

/-- C3 counterexample: with an unrecognized tool name but a `repo_path`
that does not exist, `call_tool` returns the open-failure text result —
it does not raise — because the repository is opened before the tool
name is examined.  The claim quantifies over every argument mapping
containing `repo_path`, so this input refutes it. -/
theorem call_tool_unknown_tool_counterexample :
    call_tool envNoPath "git_frobnicate" [("repo_path", Val.str "/nope")] =
      Except.ok [mkText (noPathText "/nope")] := rfl

/-- C3 (amended): for every `name` outside the 12 fixed identifiers, if
the arguments carry a `repo_path` that opens successfully, `call_tool`
raises a `ValueError` naming the unknown tool; when the open fails, the
corresponding error text result is returned before the name is examined. -/
theorem call_tool_unknown_tool_spec (env : GitEnv) (name : String) (args : Args)
    (p : String) (repo : Repo)
    (hname : name ∉ gitToolNames)
    (harg : List.lookup "repo_path" args = some (Val.str p))
    (hopen : env.openRepo p = OpenResult.ok repo) :
    call_tool env name args =
      Except.error (PyErr.valueError ("Unknown tool: " ++ name)) := by
  simp only [gitToolNames, List.mem_cons, List.not_mem_nil, or_false, not_or] at hname
  obtain ⟨h1, h2, h3, h4, h5, h6, h7, h8, h9, h10, h11, h12⟩ := hname
  simp only [call_tool, harg, asStr, hopen, h1, h2, h3, h4, h5, h6, h7, h8, h9, h10,
    h11, h12, if_false, ite_false]

/-- Witness for the amended C3 at a concrete unknown name. -/
theorem call_tool_unknown_tool_spec_witness :
    call_tool envOk "git_frobnicate" [("repo_path", Val.str "/r")] =
      Except.error (PyErr.valueError ("Unknown tool: " ++ "git_frobnicate")) :=
  call_tool_unknown_tool_spec envOk "git_frobnicate" [("repo_path", Val.str "/r")]
    "/r" dummyRepo (by decide) rfl rfl

/-- C4: whenever `call_tool` returns normally, the returned list holds
exactly one content item, and it is a text item. -/
theorem call_tool_single_text_spec (env : GitEnv) (name : String) (args : Args)
    (res : List TextContent)
    (h : call_tool env name args = Except.ok res) :
    ∃ t, res = [mkText t] := by
  rcases hl : List.lookup "repo_path" args with _ | rv
  · simp only [call_tool, hl] at h
    exact Except.noConfusion h
  rcases ha : asStr rv with e | rp
  · simp only [call_tool, hl, ha] at h
    exact Except.noConfusion h
  simp only [call_tool, hl, ha] at h
  by_cases hI : name = GitTools.INIT
  · rw [if_pos hI] at h
    rw [Except.ok.injEq] at h
    exact ⟨_, h.symm⟩
  rw [if_neg hI] at h
  rcases ho : env.openRepo rp with repo | _ | _ | m <;> simp only [ho] at h
  rotate_left
  · rw [Except.ok.injEq] at h
    exact ⟨_, h.symm⟩
  · rw [Except.ok.injEq] at h
    exact ⟨_, h.symm⟩
  · rw [Except.ok.injEq] at h
    exact ⟨_, h.symm⟩
  by_cases hS : name = GitTools.STATUS
  · rw [if_pos hS] at h
    rw [Except.ok.injEq] at h
    exact ⟨_, h.symm⟩
  rw [if_neg hS] at h
  by_cases hDU : name = GitTools.DIFF_UNSTAGED
  · rw [if_pos hDU] at h
    rw [Except.ok.injEq] at h
    exact ⟨_, h.symm⟩
  rw [if_neg hDU] at h
  by_cases hDS : name = GitTools.DIFF_STAGED
  · rw [if_pos hDS] at h
    rw [Except.ok.injEq] at h
    exact ⟨_, h.symm⟩
  rw [if_neg hDS] at h
  by_cases hD : name = GitTools.DIFF
  · rw [if_pos hD] at h
    repeat' split at h
    all_goals first
      | (rw [Except.ok.injEq] at h; exact ⟨_, h.symm⟩)
      | (exact Except.noConfusion h)
  rw [if_neg hD] at h
  by_cases hC : name = GitTools.COMMIT
  · rw [if_pos hC] at h
    repeat' split at h
    all_goals first
      | (rw [Except.ok.injEq] at h; exact ⟨_, h.symm⟩)
      | (exact Except.noConfusion h)
  rw [if_neg hC] at h
  by_cases hA : name = GitTools.ADD
  · rw [if_pos hA] at h
    repeat' split at h
    all_goals first
      | (rw [Except.ok.injEq] at h; exact ⟨_, h.symm⟩)
      | (exact Except.noConfusion h)
  rw [if_neg hA] at h
  by_cases hR : name = GitTools.RESET
  · rw [if_pos hR] at h
    repeat' split at h
    all_goals first
      | (rw [Except.ok.injEq] at h; exact ⟨_, h.symm⟩)
      | (exact Except.noConfusion h)
  rw [if_neg hR] at h
  by_cases hL : name = GitTools.LOG
  · rw [if_pos hL] at h
    repeat' split at h
    all_goals first
      | (rw [Except.ok.injEq] at h; exact ⟨_, h.symm⟩)
      | (exact Except.noConfusion h)
  rw [if_neg hL] at h
  by_cases hCB : name = GitTools.CREATE_BRANCH
  · rw [if_pos hCB] at h
    repeat' split at h
    all_goals first
      | (rw [Except.ok.injEq] at h; exact ⟨_, h.symm⟩)
      | (exact Except.noConfusion h)
  rw [if_neg hCB] at h
  by_cases hCO : name = GitTools.CHECKOUT
  · rw [if_pos hCO] at h
    repeat' split at h
    all_goals first
      | (rw [Except.ok.injEq] at h; exact ⟨_, h.symm⟩)
      | (exact Except.noConfusion h)
  rw [if_neg hCO] at h
  by_cases hSH : name = GitTools.SHOW
  · rw [if_pos hSH] at h
    repeat' split at h
    all_goals first
      | (rw [Except.ok.injEq] at h; exact ⟨_, h.symm⟩)
      | (exact Except.noConfusion h)
  rw [if_neg hSH] at h
  exact Except.noConfusion h

/-- Witness for C4: a concrete call that returns normally. -/
theorem call_tool_single_text_spec_witness :
    ∃ t, [mkText (git_status dummyRepo)] = [mkText t] :=
  call_tool_single_text_spec envOk GitTools.STATUS [("repo_path", Val.str "/r")]
    [mkText (git_status dummyRepo)] rfl

/-- C5 counterexample: with a startup path that does not exist on disk,
the open raises `NoSuchPathError`, which `serve` does not catch (it
catches only `InvalidGitRepositoryError`), so the exception propagates
out of the validation instead of the claimed log-and-return. -/
theorem serve_counterexample :
    serve envNoPath (some "/nope") = Except.error (PyErr.noSuchPath "/nope") := rfl

/-- C5 (amended): if the startup repository path is provided and opening
it raises `InvalidGitRepositoryError` (an existing location that is not
a valid repository), `serve` logs and returns without serving; a path
that does not exist raises `NoSuchPathError`, which propagates out of
the validation. -/
theorem serve_invalid_startup_spec (env : GitEnv) (p : String)
    (hinv : env.openRepo p = OpenResult.invalidGitRepository) :
    serve env (some p) = Except.ok ServeOutcome.loggedAndExited ∧
    ∀ q, env.openRepo q = OpenResult.noSuchPath →
      serve env (some q) = Except.error (PyErr.noSuchPath q) := by
  constructor
  · simp only [serve, hinv]
  · intro q hq
    simp only [serve, hq]

/-- Witness for the amended C5. -/
theorem serve_invalid_startup_spec_witness :
    serve envInvalidRoot (some "/tmp/sub") = Except.ok ServeOutcome.loggedAndExited ∧
    ∀ q, envInvalidRoot.openRepo q = OpenResult.noSuchPath →
      serve envInvalidRoot (some q) = Except.error (PyErr.noSuchPath q) :=
  serve_invalid_startup_spec envInvalidRoot "/tmp/sub" rfl

/-- Folding string append from an arbitrary accumulator factors the
accumulator out front. -/
theorem foldl_append_init (l : List String) (a : String) :
    l.foldl (fun x y => x ++ y) a = a ++ l.foldl (fun x y => x ++ y) "" := by
  induction l generalizing a with
  | nil => simp
  | cons x xs ih =>
    simp only [List.foldl_cons]
    rw [ih (a ++ x), ih ("" ++ x)]
    simp [String.append_assoc]

/-- `String.join` peels its first element off as a prefix. -/
theorem join_cons (a : String) (l : List String) :
    String.join (a :: l) = a ++ String.join l := by
  simp only [String.join, List.foldl_cons]
  rw [foldl_append_init]
  simp

/-- C6: for every commit the revision resolves to, `git_show` renders the
header followed by the rendered per-file diff entries, diffing against
the first parent when the commit has parents and against the empty tree
when it has none — a parentless commit yields a diff, not an error. -/
theorem git_show_spec (repo : Repo) (revision : String) (c : CommitObj)
    (h : repo.commitLookup revision = Except.ok c) :
    (∀ ds, c.parents = [] → repo.diffAgainstNullTree c = Except.ok ds →
      git_show repo revision =
        commitHeader c.info ++ String.join (ds.map renderDiffItem)) ∧
    (∀ parent rest ds, c.parents = parent :: rest →
      repo.diffAgainstParent parent c = Except.ok ds →
      git_show repo revision =
        commitHeader c.info ++ String.join (ds.map renderDiffItem)) := by
  constructor
  · intro ds hp hd
    simp only [git_show, h, hp, hd]
    exact join_cons _ _
  · intro parent rest ds hp hd
    simp only [git_show, h, hp, hd]
    exact join_cons _ _

/-- Witness for C6 on a concrete parentless commit. -/
theorem git_show_spec_witness :
    git_show dummyRepo "HEAD" =
      commitHeader cObj0.info ++ String.join ([d0].map renderDiffItem) :=
  (git_show_spec dummyRepo "HEAD" cObj0 rfl).1 [d0] rfl rfl

/-- C7: with a repository that opens, the commit tool hands `message` to
the engine's index-commit; on success it returns one text result
containing the new commit's full hash, and on an engine failure the
exception propagates uncaught out of `call_tool`. -/
theorem call_tool_commit_spec (env : GitEnv) (args : Args) (p msg : String)
    (repo : Repo)
    (harg : List.lookup "repo_path" args = some (Val.str p))
    (hmsg : List.lookup "message" args = some (Val.str msg))
    (hopen : env.openRepo p = OpenResult.ok repo) :
    (∀ c, repo.indexCommit msg = Except.ok c →
      call_tool env GitTools.COMMIT args =
        Except.ok [mkText ("Changes committed successfully with hash " ++ c.hexsha)] ∧
      ∃ a, "Changes committed successfully with hash " ++ c.hexsha = a ++ c.hexsha) ∧
    (∀ e, repo.indexCommit msg = Except.error e →
      call_tool env GitTools.COMMIT args = Except.error (PyErr.engine e.msg)) := by
  have r1 : GitTools.COMMIT ≠ GitTools.INIT := by decide
  have r2 : GitTools.COMMIT ≠ GitTools.STATUS := by decide
  have r3 : GitTools.COMMIT ≠ GitTools.DIFF_UNSTAGED := by decide
  have r4 : GitTools.COMMIT ≠ GitTools.DIFF_STAGED := by decide
  have r5 : GitTools.COMMIT ≠ GitTools.DIFF := by decide
  constructor
  · intro c hc
    constructor
    · simp only [call_tool, harg, asStr, hopen, if_neg r1, if_neg r2, if_neg r3,
        if_neg r4, if_neg r5, if_pos rfl, if_true, ite_true, hmsg, git_commit, hc]
    · exact ⟨"Changes committed successfully with hash ", rfl⟩
  · intro e hc
    simp only [call_tool, harg, asStr, hopen, if_neg r1, if_neg r2, if_neg r3,
      if_neg r4, if_neg r5, if_pos rfl, if_true, ite_true, hmsg, git_commit, hc]

/-- Witness for C7 on a concrete successful commit. -/
theorem call_tool_commit_spec_witness :
    call_tool envOk GitTools.COMMIT
        [("repo_path", Val.str "/r"), ("message", Val.str "msg")] =
      Except.ok [mkText ("Changes committed successfully with hash " ++ c0.hexsha)] ∧
    ∃ a, "Changes committed successfully with hash " ++ c0.hexsha = a ++ c0.hexsha :=
  (call_tool_commit_spec envOk
    [("repo_path", Val.str "/r"), ("message", Val.str "msg")] "/r" "msg" dummyRepo
    rfl rfl rfl).1 c0 rfl

/-- C8: the log tool lists the commits the engine yields for
`max_count` — 10 when the argument is absent — rendered as
hash/author/date/message and joined with blank lines; given the engine's
contract that at most `max_count` commits are yielded, at most that many
entries are rendered; an engine error becomes the
"Error getting commit logs:" text result. -/
theorem call_tool_log_spec (env : GitEnv) (args : Args) (p : String) (repo : Repo)
    (harg : List.lookup "repo_path" args = some (Val.str p))
    (hopen : env.openRepo p = OpenResult.ok repo) :
    (∀ cs, List.lookup "max_count" args = Option.none →
      repo.iterCommits 10 = Except.ok cs → cs.length ≤ 10 →
      call_tool env GitTools.LOG args =
        Except.ok [mkText (String.intercalate "\n" (cs.map logEntry))] ∧
      (cs.map logEntry).length ≤ 10) ∧
    (∀ (n : Int) cs, List.lookup "max_count" args = some (Val.int n) →
      repo.iterCommits n = Except.ok cs →
      call_tool env GitTools.LOG args =
        Except.ok [mkText (String.intercalate "\n" (cs.map logEntry))]) ∧
    (∀ e, List.lookup "max_count" args = Option.none →
      repo.iterCommits 10 = Except.error e →
      call_tool env GitTools.LOG args =
        Except.ok [mkText ("Error getting commit logs: " ++ e.msg)]) := by
  have r1 : GitTools.LOG ≠ GitTools.INIT := by decide
  have r2 : GitTools.LOG ≠ GitTools.STATUS := by decide
  have r3 : GitTools.LOG ≠ GitTools.DIFF_UNSTAGED := by decide
  have r4 : GitTools.LOG ≠ GitTools.DIFF_STAGED := by decide
  have r5 : GitTools.LOG ≠ GitTools.DIFF := by decide
  have r6 : GitTools.LOG ≠ GitTools.COMMIT := by decide
  have r7 : GitTools.LOG ≠ GitTools.ADD := by decide
  have r8 : GitTools.LOG ≠ GitTools.RESET := by decide
  refine ⟨?_, ?_, ?_⟩
  · intro cs hmc hic hlen
    refine ⟨?_, ?_⟩
    · simp only [call_tool, harg, asStr, hopen, if_neg r1, if_neg r2, if_neg r3,
        if_neg r4, if_neg r5, if_neg r6, if_neg r7, if_neg r8, if_pos rfl, if_true, ite_true, hmc,
        git_log, hic]
    · simpa using hlen
  · intro n cs hmc hic
    simp only [call_tool, harg, asStr, hopen, if_neg r1, if_neg r2, if_neg r3,
      if_neg r4, if_neg r5, if_neg r6, if_neg r7, if_neg r8, if_pos rfl, if_true, ite_true, hmc,
      asInt, git_log, hic]
  · intro e hmc hic
    simp only [call_tool, harg, asStr, hopen, if_neg r1, if_neg r2, if_neg r3,
      if_neg r4, if_neg r5, if_neg r6, if_neg r7, if_neg r8, if_pos rfl, if_true, ite_true, hmc,
      git_log, hic]

/-- Witness for C8 with `max_count` absent. -/
theorem call_tool_log_spec_witness :
    call_tool envOk GitTools.LOG [("repo_path", Val.str "/r")] =
      Except.ok [mkText (String.intercalate "\n" ([c0].map logEntry))] ∧
    ([c0].map logEntry).length ≤ 10 :=
  (call_tool_log_spec envOk [("repo_path", Val.str "/r")] "/r" dummyRepo
    rfl rfl).1 [c0] rfl rfl (by decide)

/-- C9: `list_tools` is a fixed list of exactly 12 descriptors: its names
are, in order, exactly the 12 fixed identifiers (so each appears exactly
once), and every descriptor carries a non-empty description together
with its input schema. -/
theorem list_tools_spec :
    list_tools.length = 12 ∧
    list_tools.map Tool.name = gitToolNames ∧
    (gitToolNames.all fun n => list_tools.countP (fun t => t.name == n) == 1) = true ∧
    (list_tools.all fun t => !(t.description == "")) = true :=
  ⟨rfl, rfl, rfl, rfl⟩
